import Mathlib

/-!
Shallow embedding of the FriendFinder module
(`src/src/modules/FriendFinderModule.cpp` / `.h`) of the LeapYeet/firmware
repository.

Modelling conventions:
* `uint32_t` values (node ids, millisecond timestamps) are `Nat`, reduced
  modulo `2^32` exactly where the C code's unsigned arithmetic wraps
  (`u32`, `u32sub`).
* The friend array `friends_[MAX_FRIENDS]` is a `List FriendRecord` of
  length `MAX_FRIENDS = 8` (the length is carried as an invariant).
* Outgoing radio traffic is modelled as an explicit list of `Packet`s
  produced by each operation; packet allocation (`allocForSending`) is
  modelled as succeeding (on failure the C code merely drops the send).
* UI calls (banners, `raiseUIEvent`, redraw events) and logging have no
  effect on protocol state and are omitted, as is the float field
  `previousDistance` (display-only distance trend).
* External collaborators (`millis()`, `nodeDB->getNodeNum()`, GPS status,
  battery, RTC, `random(...)`) are supplied by an `Env` record.
-/

namespace FriendFinder

/-- Constant `MAX_FRIENDS` from FriendFinderModule.h. -/
def MAX_FRIENDS : Nat := 8

/-- Constant `PAIRING_WINDOW_MS` from FriendFinderModule.h (30 s). -/
def PAIRING_WINDOW_MS : Nat := 30000

/-- Constant `UPDATE_INTERVAL` (seconds) from FriendFinderModule.cpp. -/
def UPDATE_INTERVAL : Nat := 15

/-- Constant `BACKGROUND_UPDATE_INTERVAL` (seconds) from FriendFinderModule.cpp. -/
def BACKGROUND_UPDATE_INTERVAL : Nat := 120

/-- Constant `HIGH_GPS_INTERVAL` (seconds) from FriendFinderModule.cpp. -/
def HIGH_GPS_INTERVAL : Nat := 2

/-- Constant `DEFAULT_GPS_INTERVAL` (seconds) from FriendFinderModule.cpp. -/
def DEFAULT_GPS_INTERVAL : Nat := 300

/-- Broadcast destination `NODENUM_BROADCAST` (0xFFFFFFFF). -/
def NODENUM_BROADCAST : Nat := 4294967295

/-- Reduction modulo 2^32, for `uint32_t` values. -/
def u32 (n : Nat) : Nat := n % 4294967296

/-- Unsigned 32-bit subtraction `a - b` with wraparound, as the C code
computes `now - timestamp` on `uint32_t`. -/
def u32sub (a b : Nat) : Nat := (a % 4294967296 + (4294967296 - b % 4294967296)) % 4294967296

/-- Wire enum `meshtastic_FriendFinder_RequestType`. -/
inductive RequestType
  | NONE
  | REQUEST
  | ACCEPT
  | REJECT
  | END_SESSION
deriving DecidableEq, Repr

/-- Wire message `meshtastic_FriendFinder` (telemetry payload). -/
structure FriendFinderMsg where
  request_type : RequestType
  latitude_i : Int
  longitude_i : Int
  sats_in_view : Nat
  battery_level : Nat
  time : Nat
deriving DecidableEq, Repr

/-- Value `meshtastic_FriendFinder_init_default` (all fields zeroed). -/
def defaultMsg : FriendFinderMsg :=
  { request_type := RequestType.NONE, latitude_i := 0, longitude_i := 0,
    sats_in_view := 0, battery_level := 0, time := 0 }

/-- Enum `FriendFinderState`. The header enum and the `.cpp` are from
slightly different revisions: the `.cpp` additionally uses the UI states
`MENU_SELECTION`, `CALIBRATION_MENU`, `FRIEND_LIST`, `FRIEND_LIST_ACTION`
and `TRACKING_MENU`; the union of both is embedded. -/
inductive FriendFinderState
  | IDLE
  | PAIRING_DISCOVERY
  | AWAITING_RESPONSE
  | AWAITING_CONFIRMATION
  | AWAITING_FINAL_ACCEPTANCE
  | TRACKING_TARGET
  | BEING_TRACKED
  | FRIEND_MAP
  | COMPASS_SCREEN
  | TRACKING_SPOOFED_TARGET
  | MENU_SELECTION
  | CALIBRATION_MENU
  | FRIEND_LIST
  | FRIEND_LIST_ACTION
  | TRACKING_MENU
deriving DecidableEq, Repr

/-- Struct `FriendFinderModule::FriendRecord`. -/
structure FriendRecord where
  node : Nat
  session_id : Nat
  secret : List Nat
  used : Bool
  last_data : FriendFinderMsg
  last_heard_time : Nat
deriving DecidableEq, Repr

/-- A zeroed friend slot (what `loadFriends` initialises each slot to). -/
def emptyFriend : FriendRecord :=
  { node := 0, session_id := 0, secret := List.replicate 16 0, used := false,
    last_data := defaultMsg, last_heard_time := 0 }

/-- Initial friend array: `MAX_FRIENDS` zeroed slots. -/
def initFriends : List FriendRecord := List.replicate MAX_FRIENDS emptyFriend

/-- An outgoing mesh packet as built by `sendFriendFinderPacket`:
destination, hop-limit override (`none` = router default, the C code only
overrides when the `hopLimit` argument is positive), and payload. -/
structure Packet where
  dst : Nat
  hopLimit : Option Nat
  ff : FriendFinderMsg
deriving DecidableEq, Repr

/-- External collaborators at one instant: clock, own node id, GPS fix
status and coordinates, battery, RTC time, and the two values produced by
`random(...)` when a new friend record is created. -/
structure Env where
  now : Nat
  myNodeNum : Nat
  hasLock : Bool
  latitude : Int
  longitude : Int
  numSatellites : Nat
  batteryPercent : Nat
  validTime : Nat
  randSession : Nat
  randSecret : List Nat
deriving DecidableEq, Repr

/-- The module's protocol-relevant member state (FriendFinderModule.h),
together with `config.position.gps_update_interval`, the one external
config field the module reads and writes. -/
structure ModuleState where
  currentState : FriendFinderState
  targetNodeNum : Nat
  lastFriendData : FriendFinderMsg
  lastFriendPacketTime : Nat
  lastSentPacketTime : Nat
  lastBackgroundUpdateTime : Nat
  pairingWindowOpen : Bool
  pairingWindowExpiresAt : Nat
  friends : List FriendRecord
  isGpsHighPower : Bool
  originalGpsUpdateInterval : Nat
  gpsUpdateInterval : Nat
deriving DecidableEq, Repr

/-- Module state at construction time (all members zero-initialised,
friends loaded empty); the GPS interval is a parameter of the host config. -/
def initState (gpsInterval : Nat) : ModuleState :=
  { currentState := FriendFinderState.IDLE, targetNodeNum := 0,
    lastFriendData := defaultMsg, lastFriendPacketTime := 0,
    lastSentPacketTime := 0, lastBackgroundUpdateTime := 0,
    pairingWindowOpen := false, pairingWindowExpiresAt := 0,
    friends := initFriends, isGpsHighPower := false,
    originalGpsUpdateInterval := 0, gpsUpdateInterval := gpsInterval }

/-! List helpers used to embed the fixed C array of friends. -/

/-- Element lookup (array indexing `friends_[i]`). -/
def nth : List α → Nat → Option α
  | [], _ => none
  | a :: _, 0 => some a
  | _ :: l, n + 1 => nth l n

/-- In-place update of one slot of the array. -/
def modifyIdx : List α → Nat → (α → α) → List α
  | [], _, _ => []
  | a :: l, 0, f => f a :: l
  | a :: l, n + 1, f => a :: modifyIdx l n f

/-! Friend directory operations (FriendFinderModule.cpp lines 96-173). -/

/-- `FriendFinderModule::getUsedFriendsCount`. -/
def getUsedFriendsCount (fs : List FriendRecord) : Nat :=
  (fs.filter fun f => f.used).length

/-- `FriendFinderModule::findFriend`: index of the first slot that is in
use and holds `node`, scanning slots in order. -/
def findFriend : List FriendRecord → Nat → Option Nat
  | [], _ => none
  | f :: rest, n =>
      if f.used = true ∧ f.node = n then some 0
      else (findFriend rest n).map (· + 1)

/-- First free slot, as scanned by the insertion loop in `upsertFriend`. -/
def firstFree : List FriendRecord → Option Nat
  | [] => none
  | f :: rest =>
      if f.used = false then some 0
      else (firstFree rest).map (· + 1)

/-- Slot chosen by `upsertFriend`: the existing slot for `node` if any,
else the first free slot, else slot 0 (destructive eviction when full). -/
def upsertSlot (fs : List FriendRecord) (n : Nat) : Nat :=
  match findFriend fs n with
  | some i => i
  | none =>
      match firstFree fs with
      | some i => i
      | none => 0

/-- `FriendFinderModule::upsertFriend`: writes node, session id and secret
into the chosen slot and marks it used (cached telemetry in the slot is
left as is, exactly as the C field assignments do). -/
def upsertFriend (fs : List FriendRecord) (n sid : Nat) (sec : List Nat) : List FriendRecord :=
  modifyIdx fs (upsertSlot fs n) fun f =>
    { f with node := n, session_id := sid, secret := sec, used := true }

/-- `FriendFinderModule::getFriendSlotByListIndex`: list index 0 is the
"Back" row, the used slots are numbered from 1 in slot order. -/
def getFriendSlotByListIndex (fs : List FriendRecord) (listIdx : Nat) : Option Nat :=
  if listIdx = 0 then none else go fs 0 1
where
  go : List FriendRecord → Nat → Nat → Option Nat
    | [], _, _ => none
    | f :: rest, slot, i =>
        if f.used = true then
          if i = listIdx then some slot else go rest (slot + 1) (i + 1)
        else go rest (slot + 1) i

/-- `FriendFinderModule::removeFriendAt`: resolves the UI list index to a
slot and clears that slot's `used` flag. -/
def removeFriendAt (fs : List FriendRecord) (listIdx : Nat) : List FriendRecord :=
  match getFriendSlotByListIndex fs listIdx with
  | none => fs
  | some slot => modifyIdx fs slot fun f => { f with used := false }

/-! GPS power coordination (FriendFinderModule.cpp lines 83-94, 176-193). -/

/-- `FriendFinderModule::activateHighGpsMode`: if not already boosted and
the interval is not already the boosted value, save the current interval,
force the boosted interval and set the flag. -/
def activateHighGpsMode (s : ModuleState) : ModuleState :=
  if s.isGpsHighPower = false ∧ s.gpsUpdateInterval ≠ HIGH_GPS_INTERVAL then
    { s with originalGpsUpdateInterval := s.gpsUpdateInterval,
             gpsUpdateInterval := HIGH_GPS_INTERVAL,
             isGpsHighPower := true }
  else s

/-- `FriendFinderModule::restoreNormalGpsMode`: if boosted, restore the
saved interval and clear the flag. -/
def restoreNormalGpsMode (s : ModuleState) : ModuleState :=
  if s.isGpsHighPower = true then
    { s with gpsUpdateInterval := s.originalGpsUpdateInterval,
             isGpsHighPower := false }
  else s

/-- The GPS-interval failsafe in `FriendFinderModule::setup`: a persisted
interval that is positive and at most `HIGH_GPS_INTERVAL` is replaced by
`DEFAULT_GPS_INTERVAL`; anything else is kept. -/
def setupGpsInterval (interval : Nat) : Nat :=
  if 0 < interval ∧ interval ≤ HIGH_GPS_INTERVAL then DEFAULT_GPS_INTERVAL
  else interval

/-! Packet construction (FriendFinderModule.cpp lines 765-821). -/

/-- Payload built by `sendFriendFinderPacket`: starts from
`meshtastic_FriendFinder_init_default`, fills position fields only when a
GPS lock is held, always fills battery and best-effort time. -/
def makeMsg (env : Env) (t : RequestType) : FriendFinderMsg :=
  { request_type := t,
    latitude_i := if env.hasLock = true then env.latitude else 0,
    longitude_i := if env.hasLock = true then env.longitude else 0,
    sats_in_view := if env.hasLock = true then env.numSatellites else 0,
    battery_level := env.batteryPercent,
    time := env.validTime }

/-- The packet assembled by `sendFriendFinderPacket` for destination
`dst`: the hop limit is overridden only when the argument is positive. -/
def mkPacket (env : Env) (dst : Nat) (t : RequestType) (hopLimit : Nat) : Packet :=
  { dst := dst,
    hopLimit := if 0 < hopLimit then some hopLimit else none,
    ff := makeMsg env t }

/-- `FriendFinderModule::sendFriendFinderPacket`: emits one packet and
records `lastSentPacketTime = millis()`. -/
def sendFriendFinderPacket (env : Env) (s : ModuleState) (dst : Nat)
    (t : RequestType) (hopLimit : Nat) : ModuleState × Packet :=
  ({ s with lastSentPacketTime := u32 env.now }, mkPacket env dst t hopLimit)

/-! Session entry and exit (FriendFinderModule.cpp lines 205-275). -/

/-- `FriendFinderModule::beginPairing`: opens the pairing window, enters
`AWAITING_RESPONSE` and broadcasts one `REQUEST` with hop limit 1. -/
def beginPairing (env : Env) (s : ModuleState) : ModuleState × Packet :=
  let s1 := { s with pairingWindowOpen := true,
                     pairingWindowExpiresAt := u32 (env.now + PAIRING_WINDOW_MS),
                     currentState := FriendFinderState.AWAITING_RESPONSE }
  sendFriendFinderPacket env s1 NODENUM_BROADCAST RequestType.REQUEST 1

/-- `FriendFinderModule::endSession`: optionally notifies the peer, then
clears the target, closes the pairing window, returns to `IDLE` and
restores the GPS rate. -/
def endSession (env : Env) (s : ModuleState) (notifyPeer : Bool) :
    ModuleState × List Packet :=
  let sent :=
    if notifyPeer = true ∧ s.targetNodeNum ≠ 0 then
      let sp := sendFriendFinderPacket env s s.targetNodeNum RequestType.END_SESSION 0
      (sp.1, [sp.2])
    else (s, [])
  let s2 := { sent.1 with targetNodeNum := 0, pairingWindowOpen := false,
                          currentState := FriendFinderState.IDLE }
  (restoreNormalGpsMode s2, sent.2)

/-! Receive path (FriendFinderModule.cpp lines 644-762). -/

/-- `FriendFinderModule::handleReceivedProtobuf`. Input: the sender id
(`getFrom(&mp)`), whether the packet decoded a FriendFinder payload
(`mp.decoded.has_friend_finder`), and the payload. Output: the handler's
boolean return value, the new module state, and the packets sent. -/
def handleReceivedProtobuf (env : Env) (s : ModuleState) (sender : Nat)
    (hasFF : Bool) (ff : FriendFinderMsg) : Bool × ModuleState × List Packet :=
  if sender = env.myNodeNum then (true, s, [])
  else if hasFF = false then (false, s, [])
  else
    match ff.request_type with
    | RequestType.REQUEST =>
        let isDirected : Bool := (findFriend s.friends sender).isSome
        let inWindow : Bool := s.pairingWindowOpen
        if isDirected = true ∨ inWindow = true then
          let s1 := { s with targetNodeNum := sender,
                             currentState := FriendFinderState.BEING_TRACKED }
          let s2 := activateHighGpsMode s1
          let s3 := { s2 with pairingWindowOpen := false }
          let s4 :=
            if isDirected = false ∧ inWindow = true then
              { s3 with friends := upsertFriend s3.friends sender env.randSession env.randSecret }
            else s3
          let sp := sendFriendFinderPacket env s4 sender RequestType.ACCEPT 0
          (true, sp.1, [sp.2])
        else (true, s, [])
    | RequestType.ACCEPT =>
        if s.currentState = FriendFinderState.AWAITING_RESPONSE ∧ sender = s.targetNodeNum then
          let s1 := { s with currentState := FriendFinderState.TRACKING_TARGET }
          let s2 := activateHighGpsMode s1
          let s3 := { s2 with pairingWindowOpen := false,
                              lastFriendPacketTime := u32 env.now,
                              lastFriendData := ff }
          let s4 :=
            if findFriend s3.friends sender = none then
              { s3 with friends := upsertFriend s3.friends sender env.randSession env.randSecret }
            else s3
          (true, s4, [])
        else (true, s, [])
    | RequestType.END_SESSION =>
        if sender = s.targetNodeNum ∧
           (s.currentState = FriendFinderState.TRACKING_TARGET ∨
            s.currentState = FriendFinderState.BEING_TRACKED) then
          let r := endSession env s false
          (true, r.1, r.2)
        else (true, s, [])
    | RequestType.NONE =>
        let s1 :=
          match findFriend s.friends sender with
          | some i =>
              { s with friends := modifyIdx s.friends i fun f =>
                  { f with last_data := ff, last_heard_time := u32 env.now } }
          | none => s
        let s2 :=
          if sender = s1.targetNodeNum then
            { s1 with lastFriendData := ff, lastFriendPacketTime := u32 env.now }
          else s1
        (true, s2, [])
    | RequestType.REJECT => (true, s, [])

/-! Scheduler tick (FriendFinderModule.cpp lines 562-641), split into the
three protocol-relevant phases in source order; UI-only work (map redraw,
calibration banners) is omitted. -/

/-- The idle background fan-out block of `runOnce` (lines 573-584):
while `IDLE` with a non-empty directory and a GPS lock, and the interval
gate passes, send a `NONE` telemetry packet to every used friend and
stamp `lastBackgroundUpdateTime`. -/
def backgroundFanOut (env : Env) (s : ModuleState) : ModuleState × List Packet :=
  if s.currentState = FriendFinderState.IDLE ∧
     0 < getUsedFriendsCount s.friends ∧ env.hasLock = true then
    if s.lastBackgroundUpdateTime = 0 ∨
       BACKGROUND_UPDATE_INTERVAL * 1000 < u32sub env.now s.lastBackgroundUpdateTime then
      ({ s with lastSentPacketTime := u32 env.now,
                lastBackgroundUpdateTime := u32 env.now },
       (s.friends.filter fun f => f.used).map fun f =>
         mkPacket env f.node RequestType.NONE 0)
    else (s, [])
  else (s, [])

/-- The pairing-window expiry block of `runOnce` (lines 586-594): when
the window is open and `(int32_t)(now - expiresAt) >= 0`, close the
window; only `AWAITING_RESPONSE` changes state, to `MENU_SELECTION`. -/
def pairingExpiry (env : Env) (s : ModuleState) : ModuleState :=
  if s.pairingWindowOpen = true ∧ u32sub env.now s.pairingWindowExpiresAt < 2147483648 then
    let s1 := { s with pairingWindowOpen := false }
    if s1.currentState = FriendFinderState.AWAITING_RESPONSE then
      { s1 with currentState := FriendFinderState.MENU_SELECTION }
    else s1
  else s

/-- The state switch of `runOnce` (lines 621-637): tracking-state beacons
every `UPDATE_INTERVAL` seconds; `BEING_TRACKED` falls through into the
`TRACKING_TARGET` case after its own send. -/
def trackingBeacons (env : Env) (s : ModuleState) : ModuleState × List Packet :=
  match s.currentState with
  | FriendFinderState.BEING_TRACKED =>
      let r1 :=
        if UPDATE_INTERVAL * 1000 < u32sub env.now s.lastSentPacketTime ∧ s.targetNodeNum ≠ 0 then
          let sp := sendFriendFinderPacket env s s.targetNodeNum RequestType.NONE 0
          (sp.1, [sp.2])
        else (s, [])
      let r2 :=
        if UPDATE_INTERVAL * 1000 < u32sub env.now r1.1.lastSentPacketTime ∧ r1.1.targetNodeNum ≠ 0 then
          let sp := sendFriendFinderPacket env r1.1 r1.1.targetNodeNum RequestType.NONE 0
          (sp.1, [sp.2])
        else (r1.1, [])
      (r2.1, r1.2 ++ r2.2)
  | FriendFinderState.TRACKING_TARGET =>
      if UPDATE_INTERVAL * 1000 < u32sub env.now s.lastSentPacketTime ∧ s.targetNodeNum ≠ 0 then
        let sp := sendFriendFinderPacket env s s.targetNodeNum RequestType.NONE 0
        (sp.1, [sp.2])
      else (s, [])
  | _ => (s, [])

/-- `FriendFinderModule::runOnce`: fan-out, expiry check, then beacons. -/
def runOnce (env : Env) (s : ModuleState) : ModuleState × List Packet :=
  let r1 := backgroundFanOut env s
  let s2 := pairingExpiry env r1.1
  let r3 := trackingBeacons env s2
  (r3.1, r1.2 ++ r3.2)

/-! Directory invariant and operation sequences (for the friend-directory
properties). -/

/-- One user-level directory operation: an upsert or a removal. -/
inductive DirOp
  | upsert (n sid : Nat) (sec : List Nat)
  | remove (listIdx : Nat)
deriving DecidableEq, Repr

/-- Apply one directory operation. -/
def applyOp (fs : List FriendRecord) : DirOp → List FriendRecord
  | DirOp.upsert n sid sec => upsertFriend fs n sid sec
  | DirOp.remove listIdx => removeFriendAt fs listIdx

/-- Apply a sequence of directory operations in order. -/
def applyOps (ops : List DirOp) (fs : List FriendRecord) : List FriendRecord :=
  ops.foldl applyOp fs

/-- Pairwise slot compatibility: two slots may not both be in use with the
same node id unless they are the same slot. -/
def slotOk (fs : List FriendRecord) (i j : Nat) : Bool :=
  match nth fs i, nth fs j with
  | some fi, some fj => !(fi.used && fj.used && fi.node == fj.node) || (i == j)
  | _, _ => true

/-- Directory invariant: exactly `MAX_FRIENDS` slots, and the node id is
unique among slots that are in use. -/
def Inv (fs : List FriendRecord) : Prop :=
  fs.length = MAX_FRIENDS ∧
  ∀ i, i < fs.length → ∀ j, j < fs.length → slotOk fs i j = true

/-! Basic lemmas about the list helpers. -/

theorem nth_lt {α : Type _} {l : List α} {i : Nat} (h : i < l.length) :
    ∃ a, nth l i = some a := by
  induction l generalizing i with
  | nil => simp at h
  | cons a l ih =>
      cases i with
      | zero => exact ⟨a, rfl⟩
      | succ n => exact ih (Nat.lt_of_succ_lt_succ h)

theorem nth_some_lt {α : Type _} {l : List α} {i : Nat} {a : α}
    (h : nth l i = some a) : i < l.length := by
  induction l generalizing i with
  | nil => simp [nth] at h
  | cons b l ih =>
      cases i with
      | zero => simp
      | succ n => exact Nat.succ_lt_succ (ih h)

theorem length_modifyIdx {α : Type _} (l : List α) (k : Nat) (f : α → α) :
    (modifyIdx l k f).length = l.length := by
  induction l generalizing k with
  | nil => rfl
  | cons a l ih =>
      cases k with
      | zero => rfl
      | succ n => simpa [modifyIdx] using ih n

theorem nth_modifyIdx {α : Type _} (l : List α) (k i : Nat) (f : α → α) :
    nth (modifyIdx l k f) i = if i = k then (nth l i).map f else nth l i := by
  induction l generalizing k i with
  | nil => simp [modifyIdx, nth]
  | cons a l ih =>
      cases k with
      | zero =>
          cases i with
          | zero => simp [modifyIdx, nth]
          | succ n => simp [modifyIdx, nth]
      | succ m =>
          cases i with
          | zero => simp [modifyIdx, nth]
          | succ n =>
              simp only [modifyIdx, nth, ih]
              by_cases h : n = m
              · simp [h]
              · simp [h, fun hc => h (Nat.succ_injective hc)]

theorem findFriend_some {fs : List FriendRecord} {n i : Nat}
    (h : findFriend fs n = some i) :
    ∃ f, nth fs i = some f ∧ f.used = true ∧ f.node = n := by
  induction fs generalizing i with
  | nil => simp [findFriend] at h
  | cons f rest ih =>
      by_cases hf : f.used = true ∧ f.node = n
      · simp [findFriend, hf] at h
        subst h
        exact ⟨f, rfl, hf⟩
      · simp [findFriend, hf] at h
        obtain ⟨j, hj, rfl⟩ := h
        obtain ⟨g, hg, hgu, hgn⟩ := ih hj
        exact ⟨g, hg, hgu, hgn⟩

theorem findFriend_none {fs : List FriendRecord} {n : Nat}
    (h : findFriend fs n = none) :
    ∀ i f, nth fs i = some f → f.used = true → f.node ≠ n := by
  induction fs with
  | nil => intro i f hf; simp [nth] at hf
  | cons g rest ih =>
      intro i f hf hu
      by_cases hg : g.used = true ∧ g.node = n
      · simp [findFriend, hg] at h
      · simp [findFriend, hg] at h
        cases i with
        | zero =>
            simp [nth] at hf
            subst hf
            intro hn
            exact hg ⟨hu, hn⟩
        | succ m => exact ih h m f hf hu

theorem findFriend_isSome {fs : List FriendRecord} {n i : Nat} {f : FriendRecord}
    (hf : nth fs i = some f) (hu : f.used = true) (hn : f.node = n) :
    (findFriend fs n).isSome = true := by
  cases hff : findFriend fs n with
  | some j => rfl
  | none => exact absurd hn (findFriend_none hff i f hf hu)

theorem firstFree_some {fs : List FriendRecord} {i : Nat}
    (h : firstFree fs = some i) : ∃ f, nth fs i = some f ∧ f.used = false := by
  induction fs generalizing i with
  | nil => simp [firstFree] at h
  | cons f rest ih =>
      by_cases hf : f.used = false
      · simp [firstFree, hf] at h
        subst h
        exact ⟨f, rfl, hf⟩
      · simp [firstFree, hf] at h
        obtain ⟨j, hj, rfl⟩ := h
        obtain ⟨g, hg, hgu⟩ := ih hj
        exact ⟨g, hg, hgu⟩

theorem upsertSlot_lt (fs : List FriendRecord) (n : Nat) (h : 0 < fs.length) :
    upsertSlot fs n < fs.length := by
  unfold upsertSlot
  cases hff : findFriend fs n with
  | some i =>
      obtain ⟨f, hf, _, _⟩ := findFriend_some hff
      simpa using nth_some_lt hf
  | none =>
      cases hfr : firstFree fs with
      | some i =>
          obtain ⟨f, hf, _⟩ := firstFree_some hfr
          simpa using nth_some_lt hf
      | none => simpa using h

theorem nth_upsertFriend_self (fs : List FriendRecord) (n sid : Nat) (sec : List Nat)
    (h : 0 < fs.length) :
    ∃ f, nth (upsertFriend fs n sid sec) (upsertSlot fs n) = some f ∧
      f.used = true ∧ f.node = n ∧ f.session_id = sid := by
  obtain ⟨g, hg⟩ := nth_lt (upsertSlot_lt fs n h)
  refine ⟨{ g with node := n, session_id := sid, secret := sec, used := true }, ?_, rfl, rfl, rfl⟩
  unfold upsertFriend
  rw [nth_modifyIdx, if_pos rfl, hg]
  rfl

theorem findFriend_upsert_isSome (fs : List FriendRecord) (n sid : Nat) (sec : List Nat)
    (h : 0 < fs.length) :
    (findFriend (upsertFriend fs n sid sec) n).isSome = true := by
  obtain ⟨f, hf, hu, hn, _⟩ := nth_upsertFriend_self fs n sid sec h
  exact findFriend_isSome hf hu hn

/-! Lemmas about the directory invariant. -/

theorem inv_elim {fs : List FriendRecord} (hInv : Inv fs) {i j : Nat}
    {fi fj : FriendRecord} (hi : nth fs i = some fi) (hj : nth fs j = some fj)
    (hui : fi.used = true) (huj : fj.used = true) (hnode : fi.node = fj.node) :
    i = j := by
  have h := hInv.2 i (nth_some_lt hi) j (nth_some_lt hj)
  unfold slotOk at h
  rw [hi, hj] at h
  simp [hui, huj, hnode] at h
  exact h

theorem inv_intro {fs : List FriendRecord} (hlen : fs.length = MAX_FRIENDS)
    (h : ∀ i j fi fj, nth fs i = some fi → nth fs j = some fj →
      fi.used = true → fj.used = true → fi.node = fj.node → i = j) :
    Inv fs := by
  refine ⟨hlen, ?_⟩
  intro i hi j hj
  obtain ⟨fi, hfi⟩ := nth_lt hi
  obtain ⟨fj, hfj⟩ := nth_lt hj
  unfold slotOk
  rw [hfi, hfj]
  by_cases hui : fi.used = true
  · by_cases huj : fj.used = true
    · by_cases hnn : fi.node = fj.node
      · have := h i j fi fj hfi hfj hui huj hnn
        simp [this]
      · simp [hui, huj, hnn]
    · simp [Bool.eq_false_iff.mpr huj]
  · simp [Bool.eq_false_iff.mpr hui]

theorem inv_upsert {fs : List FriendRecord} {n sid : Nat} {sec : List Nat}
    (h : Inv fs) : Inv (upsertFriend fs n sid sec) := by
  have hlen : (upsertFriend fs n sid sec).length = MAX_FRIENDS := by
    unfold upsertFriend
    rw [length_modifyIdx]
    exact h.1
  refine inv_intro hlen ?_
  intro i j fi fj hfi hfj hui huj hnode
  unfold upsertFriend at hfi hfj
  rw [nth_modifyIdx] at hfi hfj
  by_cases hik : i = upsertSlot fs n
  · by_cases hjk : j = upsertSlot fs n
    · rw [hik, hjk]
    · rw [if_pos hik] at hfi
      rw [if_neg hjk] at hfj
      obtain ⟨gi, hgi, hfi'⟩ : ∃ g, nth fs i = some g ∧
          fi = { g with node := n, session_id := sid, secret := sec, used := true } := by
        cases hg : nth fs i with
        | none => rw [hg] at hfi; simp at hfi
        | some g => rw [hg] at hfi; simp at hfi; exact ⟨g, rfl, hfi.symm⟩
      have hfin : fi.node = n := by rw [hfi']
      cases hff : findFriend fs n with
      | some k0 =>
          have hk0 : upsertSlot fs n = k0 := by unfold upsertSlot; rw [hff]
          obtain ⟨g, hg, hgu, hgn⟩ := findFriend_some hff
          have : j = k0 := by
            refine inv_elim h hfj hg huj ?_ ?_
            · exact hgu
            · rw [hgn, ← hfin, hnode]
          rw [hik, hk0]
          exact this.symm
      | none =>
          have : fj.node ≠ n := findFriend_none hff j fj hfj huj
          exact absurd (hnode ▸ hfin) (by rw [← hnode] at this ⊢; exact fun hc => this (hnode ▸ hc))
  · by_cases hjk : j = upsertSlot fs n
    · rw [if_neg hik] at hfi
      rw [if_pos hjk] at hfj
      obtain ⟨gj, hgj, hfj'⟩ : ∃ g, nth fs j = some g ∧
          fj = { g with node := n, session_id := sid, secret := sec, used := true } := by
        cases hg : nth fs j with
        | none => rw [hg] at hfj; simp at hfj
        | some g => rw [hg] at hfj; simp at hfj; exact ⟨g, rfl, hfj.symm⟩
      have hfjn : fj.node = n := by rw [hfj']
      cases hff : findFriend fs n with
      | some k0 =>
          have hk0 : upsertSlot fs n = k0 := by unfold upsertSlot; rw [hff]
          obtain ⟨g, hg, hgu, hgn⟩ := findFriend_some hff
          have : i = k0 := by
            refine inv_elim h hfi hg hui ?_ ?_
            · exact hgu
            · rw [hgn, hnode, hfjn]
          rw [hjk, hk0]
          exact this
      | none =>
          have : fi.node ≠ n := findFriend_none hff i fi hfi hui
          exact absurd (hnode.symm ▸ hfjn) (by intro hc; exact this (by rw [hnode, hfjn]))
    · rw [if_neg hik] at hfi
      rw [if_neg hjk] at hfj
      exact inv_elim h hfi hfj hui huj hnode

theorem inv_remove {fs : List FriendRecord} {listIdx : Nat} (h : Inv fs) :
    Inv (removeFriendAt fs listIdx) := by
  unfold removeFriendAt
  cases hslot : getFriendSlotByListIndex fs listIdx with
  | none => exact h
  | some slot =>
      have hlen : (modifyIdx fs slot fun f => { f with used := false }).length
          = MAX_FRIENDS := by rw [length_modifyIdx]; exact h.1
      refine inv_intro hlen ?_
      intro i j fi fj hfi hfj hui huj hnode
      rw [nth_modifyIdx] at hfi hfj
      by_cases hik : i = slot
      · rw [if_pos hik] at hfi
        cases hg : nth fs i with
        | none => rw [hg] at hfi; simp at hfi
        | some g =>
            rw [hg] at hfi
            simp at hfi
            rw [← hfi] at hui
            simp at hui
      · rw [if_neg hik] at hfi
        by_cases hjk : j = slot
        · rw [if_pos hjk] at hfj
          cases hg : nth fs j with
          | none => rw [hg] at hfj; simp at hfj
          | some g =>
              rw [hg] at hfj
              simp at hfj
              rw [← hfj] at huj
              simp at huj
        · rw [if_neg hjk] at hfj
          exact inv_elim h hfi hfj hui huj hnode

theorem inv_init : Inv initFriends := by
  refine ⟨rfl, ?_⟩
  decide

/-! Frame lemmas: `activateHighGpsMode` and `restoreNormalGpsMode` only
touch the three GPS fields. -/

@[simp] theorem activate_currentState (s : ModuleState) :
    (activateHighGpsMode s).currentState = s.currentState := by
  unfold activateHighGpsMode; split <;> rfl

@[simp] theorem activate_targetNodeNum (s : ModuleState) :
    (activateHighGpsMode s).targetNodeNum = s.targetNodeNum := by
  unfold activateHighGpsMode; split <;> rfl

@[simp] theorem activate_friends (s : ModuleState) :
    (activateHighGpsMode s).friends = s.friends := by
  unfold activateHighGpsMode; split <;> rfl

@[simp] theorem activate_pairingWindowOpen (s : ModuleState) :
    (activateHighGpsMode s).pairingWindowOpen = s.pairingWindowOpen := by
  unfold activateHighGpsMode; split <;> rfl

@[simp] theorem activate_lastFriendData (s : ModuleState) :
    (activateHighGpsMode s).lastFriendData = s.lastFriendData := by
  unfold activateHighGpsMode; split <;> rfl

@[simp] theorem activate_lastFriendPacketTime (s : ModuleState) :
    (activateHighGpsMode s).lastFriendPacketTime = s.lastFriendPacketTime := by
  unfold activateHighGpsMode; split <;> rfl

@[simp] theorem restore_currentState (s : ModuleState) :
    (restoreNormalGpsMode s).currentState = s.currentState := by
  unfold restoreNormalGpsMode; split <;> rfl

@[simp] theorem restore_targetNodeNum (s : ModuleState) :
    (restoreNormalGpsMode s).targetNodeNum = s.targetNodeNum := by
  unfold restoreNormalGpsMode; split <;> rfl

@[simp] theorem restore_friends (s : ModuleState) :
    (restoreNormalGpsMode s).friends = s.friends := by
  unfold restoreNormalGpsMode; split <;> rfl

@[simp] theorem restore_pairingWindowOpen (s : ModuleState) :
    (restoreNormalGpsMode s).pairingWindowOpen = s.pairingWindowOpen := by
  unfold restoreNormalGpsMode; split <;> rfl

/-! Concrete values used by witnesses and counterexamples. -/

/-- A telemetry message of the given kind with all other fields zero. -/
def msgOf (t : RequestType) : FriendFinderMsg := { defaultMsg with request_type := t }

/-- A concrete environment: device node id 1, GPS lock held. -/
def cEnv : Env :=
  { now := 1000, myNodeNum := 1, hasLock := true, latitude := 100, longitude := 200,
    numSatellites := 5, batteryPercent := 80, validTime := 42,
    randSession := 7, randSecret := List.replicate 16 3 }

/-- The concrete environment at another clock reading. -/
def envAt (t : Nat) : Env := { cEnv with now := t }

/-- Idle module, empty directory, pairing window open (for REQUEST tests). -/
def c1State : ModuleState :=
  { initState 300 with pairingWindowOpen := true, pairingWindowExpiresAt := 30000 }

/-- Module awaiting a response from target 5 (for ACCEPT tests). -/
def c2State : ModuleState :=
  { initState 300 with
    currentState := FriendFinderState.AWAITING_RESPONSE,
    targetNodeNum := 5, pairingWindowOpen := true, pairingWindowExpiresAt := 30000 }

/-- Module awaiting a response with the pairing window already expired. -/
def c3State : ModuleState :=
  { initState 300 with
    currentState := FriendFinderState.AWAITING_RESPONSE,
    pairingWindowOpen := true, pairingWindowExpiresAt := 500 }

/-- Module state right after the user starts discovery at time 0. -/
def c4State : ModuleState := (beginPairing (envAt 0) (initState 300)).1

/-- Module tracking target 5 with the GPS boosted earlier from 300 s. -/
def c5State : ModuleState :=
  { initState 300 with
    currentState := FriendFinderState.TRACKING_TARGET,
    targetNodeNum := 5, isGpsHighPower := true,
    originalGpsUpdateInterval := 300, gpsUpdateInterval := HIGH_GPS_INTERVAL }

/-- Idle module with one saved friend (node 7) and no fan-out sent yet. -/
def c8State : ModuleState :=
  { initState 300 with friends := upsertFriend initFriends 7 1 (List.replicate 16 0) }

/-! Claim theorems. -/

/-- C10: a received packet whose sender equals the device's own node id is
ignored: `handleReceivedProtobuf` returns true at once, the module state
(session state, target, pairing window, friend directory) is unchanged
and no packet is transmitted. -/
theorem self_packet_ignored (env : Env) (s : ModuleState) (hasFF : Bool)
    (ff : FriendFinderMsg) :
    handleReceivedProtobuf env s env.myNodeNum hasFF ff = (true, s, []) := by
  simp [handleReceivedProtobuf]

/-- C7 (amended): the startup failsafe restores the configured default
interval whenever the persisted interval is positive and at or below the
boosted threshold; a persisted interval of 0 (GPS disabled) is excluded. -/
theorem setup_gps_failsafe (n : Nat) (h1 : 0 < n) (h2 : n ≤ HIGH_GPS_INTERVAL) :
    setupGpsInterval n = DEFAULT_GPS_INTERVAL := by
  simp [setupGpsInterval, h1, h2]

/-- Witness for C7's theorem at the boosted value 2. -/
theorem setup_gps_failsafe_w : setupGpsInterval 2 = DEFAULT_GPS_INTERVAL :=
  setup_gps_failsafe 2 (by decide) (by decide)

/-- C7 counterexample: a persisted interval of 0 is at or below the
boosted threshold, yet `setup` leaves it at 0, not at the default. -/
theorem setup_gps_zero_cex :
    setupGpsInterval 0 = 0 ∧ (0 : Nat) ≤ HIGH_GPS_INTERVAL ∧
    (0 : Nat) ≠ DEFAULT_GPS_INTERVAL := by
  decide

/-- C6: the GPS boost is guarded by `isGpsHighPower`: activating or
restoring twice is the same as doing it once, and from an unboosted state
a boost-restore pair returns the interval to its pre-boost value (which is
exactly the value saved at boost time when a boost actually occurs). -/
theorem gps_boost_restore_once (s : ModuleState) :
    activateHighGpsMode (activateHighGpsMode s) = activateHighGpsMode s ∧
    restoreNormalGpsMode (restoreNormalGpsMode s) = restoreNormalGpsMode s ∧
    (s.isGpsHighPower = false →
      (restoreNormalGpsMode (activateHighGpsMode s)).gpsUpdateInterval = s.gpsUpdateInterval ∧
      (restoreNormalGpsMode (activateHighGpsMode s)).isGpsHighPower = false ∧
      (s.gpsUpdateInterval ≠ HIGH_GPS_INTERVAL →
        (activateHighGpsMode s).originalGpsUpdateInterval = s.gpsUpdateInterval)) := by
  refine ⟨?_, ?_, ?_⟩
  · by_cases h : s.isGpsHighPower = false ∧ s.gpsUpdateInterval ≠ HIGH_GPS_INTERVAL
    · simp [activateHighGpsMode, h]
    · simp [activateHighGpsMode, h]
  · by_cases h : s.isGpsHighPower = true
    · simp [restoreNormalGpsMode, h]
    · simp [restoreNormalGpsMode, h]
  · intro hf
    by_cases hi : s.gpsUpdateInterval = HIGH_GPS_INTERVAL
    · refine ⟨?_, ?_, fun hc => absurd hi hc⟩
      · simp [activateHighGpsMode, restoreNormalGpsMode, hf, hi]
      · simp [activateHighGpsMode, restoreNormalGpsMode, hf, hi]
    · refine ⟨?_, ?_, fun _ => ?_⟩
      · simp [activateHighGpsMode, restoreNormalGpsMode, hf, hi]
      · simp [activateHighGpsMode, restoreNormalGpsMode, hf, hi]
      · simp [activateHighGpsMode, hf, hi]

/-- Witness for C6's theorem: a boost-restore pair from the 300 s default
returns the interval to 300. -/
theorem gps_boost_restore_once_w :
    (restoreNormalGpsMode (activateHighGpsMode (initState 300))).gpsUpdateInterval = 300 :=
  ((gps_boost_restore_once (initState 300)).2.2 (by decide)).1

/-- C5: receiving END_SESSION from the current target while tracking (in
either role) tears the session down locally — back to `IDLE`, target
cleared, GPS restored to the saved interval — and transmits nothing, in
particular no END_SESSION echo. -/
theorem end_session_no_echo (env : Env) (s : ModuleState) (sender : Nat)
    (ff : FriendFinderMsg)
    (hs : sender ≠ env.myNodeNum) (ht : ff.request_type = RequestType.END_SESSION)
    (htgt : sender = s.targetNodeNum)
    (hst : s.currentState = FriendFinderState.TRACKING_TARGET ∨
           s.currentState = FriendFinderState.BEING_TRACKED) :
    (handleReceivedProtobuf env s sender true ff).2.2 = [] ∧
    (handleReceivedProtobuf env s sender true ff).2.1.currentState = FriendFinderState.IDLE ∧
    (handleReceivedProtobuf env s sender true ff).2.1.targetNodeNum = 0 ∧
    (handleReceivedProtobuf env s sender true ff).2.1.isGpsHighPower = false ∧
    (handleReceivedProtobuf env s sender true ff).2.1.gpsUpdateInterval =
      (if s.isGpsHighPower = true then s.originalGpsUpdateInterval else s.gpsUpdateInterval) := by
  have hs' : s.targetNodeNum ≠ env.myNodeNum := by rw [← htgt]; exact hs
  rcases hst with hc | hc <;> by_cases hgps : s.isGpsHighPower = true <;>
    simp [handleReceivedProtobuf, ht, htgt, hs', hc, endSession, restoreNormalGpsMode, hgps]

/-- Witness for C5's theorem: peer 5 ends the session while we track it;
we return to IDLE with the 300 s interval restored and send nothing. -/
theorem end_session_no_echo_w :
    (handleReceivedProtobuf cEnv c5State 5 true (msgOf RequestType.END_SESSION)).2.2 = [] :=
  (end_session_no_echo cEnv c5State 5 (msgOf RequestType.END_SESSION)
    (by decide) rfl rfl (Or.inl rfl)).1

/-- C3 (amended): when the pairing-window timer expires in any pairing
sub-state, `runOnce` closes the window and sends nothing; the state
changes only from `AWAITING_RESPONSE`, and there it becomes
`MENU_SELECTION`, never `IDLE`; the other pairing sub-states keep their
state unchanged. -/
theorem pairing_window_expiry (env : Env) (s : ModuleState)
    (hw : s.pairingWindowOpen = true)
    (hexp : u32sub env.now s.pairingWindowExpiresAt < 2147483648)
    (hst : s.currentState = FriendFinderState.PAIRING_DISCOVERY ∨
           s.currentState = FriendFinderState.AWAITING_RESPONSE ∨
           s.currentState = FriendFinderState.AWAITING_CONFIRMATION ∨
           s.currentState = FriendFinderState.AWAITING_FINAL_ACCEPTANCE) :
    (runOnce env s).1.pairingWindowOpen = false ∧
    (runOnce env s).1.currentState =
      (if s.currentState = FriendFinderState.AWAITING_RESPONSE then
        FriendFinderState.MENU_SELECTION else s.currentState) ∧
    (runOnce env s).2 = [] := by
  rcases hst with hc | hc | hc | hc <;>
    simp [runOnce, backgroundFanOut, pairingExpiry, trackingBeacons, hw, hexp, hc]

/-- Witness for C3's theorem: the expired window at `c3State` is closed. -/
theorem pairing_window_expiry_w : (runOnce cEnv c3State).1.pairingWindowOpen = false :=
  (pairing_window_expiry cEnv c3State rfl (by decide) (Or.inr (Or.inl rfl))).1

/-- C3 counterexample: with the window expired in `AWAITING_RESPONSE`,
`runOnce` moves to `MENU_SELECTION`, not to `IDLE` as the claim states. -/
theorem pairing_expiry_not_idle_cex :
    (runOnce cEnv c3State).1.currentState = FriendFinderState.MENU_SELECTION ∧
    (runOnce cEnv c3State).1.currentState ≠ FriendFinderState.IDLE ∧
    (runOnce cEnv c3State).1.pairingWindowOpen = false := by
  decide

/-- C4 (amended): the user-started discovery broadcast REQUEST is sent
exactly once, with hop limit 1, by `beginPairing`; it is never re-sent:
a scheduler tick in `AWAITING_RESPONSE` (the state `beginPairing` enters)
transmits nothing at all. -/
theorem discovery_broadcast_once (env : Env) (s : ModuleState) (env2 : Env)
    (s2 : ModuleState) (h : s2.currentState = FriendFinderState.AWAITING_RESPONSE) :
    (beginPairing env s).2 =
      { dst := NODENUM_BROADCAST, hopLimit := some 1, ff := makeMsg env RequestType.REQUEST } ∧
    (runOnce env2 s2).2 = [] := by
  constructor
  · simp [beginPairing, sendFriendFinderPacket, mkPacket]
  · by_cases hc : s2.pairingWindowOpen = true ∧
        u32sub env2.now s2.pairingWindowExpiresAt < 2147483648
    · simp [runOnce, backgroundFanOut, pairingExpiry, trackingBeacons, h, hc]
    · simp [runOnce, backgroundFanOut, pairingExpiry, trackingBeacons, h, hc]

/-- Witness for C4's theorem: six seconds after discovery was started at
time 0, a tick transmits nothing. -/
theorem discovery_broadcast_once_w : (runOnce (envAt 6000) c4State).2 = [] :=
  (discovery_broadcast_once cEnv (initState 300) (envAt 6000) c4State rfl).2

/-- C4 counterexample: 6 s after the discovery broadcast the pairing
window is still open, yet the tick re-sends nothing — there is no 5 s
re-broadcast loop anywhere in the code. -/
theorem discovery_no_rebroadcast_cex :
    (runOnce (envAt 6000) c4State).2 = [] ∧
    (runOnce (envAt 6000) c4State).1.pairingWindowOpen = true := by
  decide

/-- C8 (amended): the idle background fan-out sends only while `IDLE`
with a non-empty directory and a GPS fix; when it fires it sends one
`NONE` telemetry packet to exactly the in-use friends and stamps the
time; and with a non-zero stamp it fires again only after more than
`BACKGROUND_UPDATE_INTERVAL` seconds — the zero stamp (a fan-out at
`millis() = 0`) is indistinguishable from the never-sent sentinel. -/
theorem background_fanout_gating (env : Env) (s : ModuleState) :
    ((backgroundFanOut env s).2 ≠ [] →
      s.currentState = FriendFinderState.IDLE ∧ 0 < getUsedFriendsCount s.friends ∧
      env.hasLock = true) ∧
    (s.currentState = FriendFinderState.IDLE → 0 < getUsedFriendsCount s.friends →
      env.hasLock = true →
      (s.lastBackgroundUpdateTime = 0 ∨
        BACKGROUND_UPDATE_INTERVAL * 1000 < u32sub env.now s.lastBackgroundUpdateTime) →
      (backgroundFanOut env s).2 =
        ((s.friends.filter fun f => f.used).map fun f =>
          mkPacket env f.node RequestType.NONE 0) ∧
      (backgroundFanOut env s).1.lastBackgroundUpdateTime = u32 env.now) ∧
    (s.lastBackgroundUpdateTime ≠ 0 →
      u32sub env.now s.lastBackgroundUpdateTime ≤ BACKGROUND_UPDATE_INTERVAL * 1000 →
      (backgroundFanOut env s).2 = []) := by
  refine ⟨?_, ?_, ?_⟩
  · intro hne
    by_cases h1 : s.currentState = FriendFinderState.IDLE ∧
        0 < getUsedFriendsCount s.friends ∧ env.hasLock = true
    · exact h1
    · exact absurd (by simp [backgroundFanOut, h1]) hne
  · intro h1 h2 h3 h4
    unfold backgroundFanOut
    rw [if_pos ⟨h1, h2, h3⟩, if_pos h4]
    exact ⟨rfl, rfl⟩
  · intro h5 h6
    have hgate : ¬(s.lastBackgroundUpdateTime = 0 ∨
        BACKGROUND_UPDATE_INTERVAL * 1000 < u32sub env.now s.lastBackgroundUpdateTime) :=
      fun hor => hor.elim h5 fun hlt => absurd h6 (not_le.mpr hlt)
    unfold backgroundFanOut
    by_cases h1 : s.currentState = FriendFinderState.IDLE ∧
        0 < getUsedFriendsCount s.friends ∧ env.hasLock = true
    · rw [if_pos h1, if_neg hgate]
    · rw [if_neg h1]

/-- Witness for C8's theorem: the fan-out at time 0 from `c8State`
stamps the send time. -/
theorem background_fanout_gating_w :
    (backgroundFanOut (envAt 0) c8State).1.lastBackgroundUpdateTime = u32 (envAt 0).now :=
  ((background_fanout_gating (envAt 0) c8State).2.1 rfl (by decide) rfl (Or.inl rfl)).2

/-- C8 counterexample: a fan-out fired at `millis() = 0` stores the
timestamp 0, which is the never-sent sentinel, so the very next tick —
1 ms later, far less than `BACKGROUND_UPDATE_INTERVAL` — fans out again
to the same friend. -/
theorem background_fanout_at_boot_cex :
    ((runOnce (envAt 0) c8State).2.map fun p => (p.dst, p.ff.request_type)) =
      [(7, RequestType.NONE)] ∧
    ((runOnce (envAt 1) (runOnce (envAt 0) c8State).1).2.map fun p =>
      (p.dst, p.ff.request_type)) = [(7, RequestType.NONE)] := by
  decide

/-- C1 (amended): a REQUEST from a known friend, or any REQUEST while the
pairing window is open, makes the device the tracked party: state
`BEING_TRACKED` with the sender as target, the window closed, a friend
record created if the sender was unknown, the GPS boost routine applied —
and the device replies with a single ACCEPT; no NONE telemetry message
follows it. -/
theorem request_accept_reply (env : Env) (s : ModuleState) (sender : Nat)
    (ff : FriendFinderMsg)
    (hs : sender ≠ env.myNodeNum) (ht : ff.request_type = RequestType.REQUEST)
    (hlen : 0 < s.friends.length)
    (hcond : (findFriend s.friends sender).isSome = true ∨ s.pairingWindowOpen = true) :
    (handleReceivedProtobuf env s sender true ff).1 = true ∧
    (handleReceivedProtobuf env s sender true ff).2.1.currentState =
      FriendFinderState.BEING_TRACKED ∧
    (handleReceivedProtobuf env s sender true ff).2.1.targetNodeNum = sender ∧
    (handleReceivedProtobuf env s sender true ff).2.1.pairingWindowOpen = false ∧
    (findFriend (handleReceivedProtobuf env s sender true ff).2.1.friends sender).isSome
      = true ∧
    ((findFriend s.friends sender).isSome = false →
      (handleReceivedProtobuf env s sender true ff).2.1.friends =
        upsertFriend s.friends sender env.randSession env.randSecret) ∧
    ((handleReceivedProtobuf env s sender true ff).2.2.map fun p =>
      (p.dst, p.ff.request_type, p.hopLimit)) = [(sender, RequestType.ACCEPT, none)] ∧
    (handleReceivedProtobuf env s sender true ff).2.1.isGpsHighPower =
      (activateHighGpsMode s).isGpsHighPower ∧
    (handleReceivedProtobuf env s sender true ff).2.1.gpsUpdateInterval =
      (activateHighGpsMode s).gpsUpdateInterval := by
  by_cases hd : (findFriend s.friends sender).isSome = true
  · by_cases hgps : s.isGpsHighPower = false ∧ s.gpsUpdateInterval ≠ HIGH_GPS_INTERVAL
    · simp [handleReceivedProtobuf, ht, hs, hd, activateHighGpsMode, hgps,
        sendFriendFinderPacket, mkPacket, makeMsg]
    · simp [handleReceivedProtobuf, ht, hs, hd, activateHighGpsMode, hgps,
        sendFriendFinderPacket, mkPacket, makeMsg]
  · have hw : s.pairingWindowOpen = true := hcond.resolve_left hd
    have hdf : (findFriend s.friends sender).isSome = false := Bool.eq_false_iff.mpr hd
    have hnew : (findFriend
        (upsertFriend s.friends sender env.randSession env.randSecret) sender).isSome
        = true := findFriend_upsert_isSome s.friends sender env.randSession env.randSecret hlen
    by_cases hgps : s.isGpsHighPower = false ∧ s.gpsUpdateInterval ≠ HIGH_GPS_INTERVAL
    · simp [handleReceivedProtobuf, ht, hs, hdf, hw, hnew, activateHighGpsMode, hgps,
        sendFriendFinderPacket, mkPacket, makeMsg]
    · simp [handleReceivedProtobuf, ht, hs, hdf, hw, hnew, activateHighGpsMode, hgps,
        sendFriendFinderPacket, mkPacket, makeMsg]

/-- Witness for C1's theorem: with the window open and an empty directory,
a REQUEST from node 5 puts the module in `BEING_TRACKED`. -/
theorem request_accept_reply_w :
    (handleReceivedProtobuf cEnv c1State 5 true (msgOf RequestType.REQUEST)).2.1.currentState
      = FriendFinderState.BEING_TRACKED :=
  (request_accept_reply cEnv c1State 5 (msgOf RequestType.REQUEST)
    (by decide) rfl (by decide) (Or.inr rfl)).2.1

/-- C1 counterexample: the reply to the accepted REQUEST is exactly one
ACCEPT packet — no immediate NONE telemetry message follows, contrary to
the claim's "reply ACCEPT + immediate NONE". -/
theorem request_no_none_reply_cex :
    ((handleReceivedProtobuf cEnv c1State 5 true (msgOf RequestType.REQUEST)).2.2.map
      fun p => p.ff.request_type) = [RequestType.ACCEPT] := by
  decide

/-- C2 (amended): an ACCEPT from the current target while awaiting a
response moves the session to `TRACKING_TARGET`, persists the sender as a
friend if not already in the directory, applies the GPS boost routine,
and transmits nothing — in particular no NONE telemetry reply is sent. -/
theorem accept_no_reply (env : Env) (s : ModuleState) (sender : Nat)
    (ff : FriendFinderMsg)
    (hs : sender ≠ env.myNodeNum) (ht : ff.request_type = RequestType.ACCEPT)
    (hst : s.currentState = FriendFinderState.AWAITING_RESPONSE)
    (htgt : sender = s.targetNodeNum) (hlen : 0 < s.friends.length) :
    (handleReceivedProtobuf env s sender true ff).1 = true ∧
    (handleReceivedProtobuf env s sender true ff).2.1.currentState =
      FriendFinderState.TRACKING_TARGET ∧
    (handleReceivedProtobuf env s sender true ff).2.2 = [] ∧
    (findFriend (handleReceivedProtobuf env s sender true ff).2.1.friends sender).isSome
      = true ∧
    (findFriend s.friends sender = none →
      (handleReceivedProtobuf env s sender true ff).2.1.friends =
        upsertFriend s.friends sender env.randSession env.randSecret) ∧
    (handleReceivedProtobuf env s sender true ff).2.1.pairingWindowOpen = false ∧
    (handleReceivedProtobuf env s sender true ff).2.1.lastFriendData = ff ∧
    (handleReceivedProtobuf env s sender true ff).2.1.isGpsHighPower =
      (activateHighGpsMode s).isGpsHighPower ∧
    (handleReceivedProtobuf env s sender true ff).2.1.gpsUpdateInterval =
      (activateHighGpsMode s).gpsUpdateInterval := by
  subst htgt
  by_cases hfnd : findFriend s.friends s.targetNodeNum = none
  · have hnew : (findFriend
        (upsertFriend s.friends s.targetNodeNum env.randSession env.randSecret)
        s.targetNodeNum).isSome = true :=
      findFriend_upsert_isSome s.friends s.targetNodeNum env.randSession env.randSecret hlen
    by_cases hgps : s.isGpsHighPower = false ∧ s.gpsUpdateInterval ≠ HIGH_GPS_INTERVAL
    · simp [handleReceivedProtobuf, ht, hs, hst, hfnd, hnew, activateHighGpsMode, hgps]
    · simp [handleReceivedProtobuf, ht, hs, hst, hfnd, hnew, activateHighGpsMode, hgps]
  · have hknown : (findFriend s.friends s.targetNodeNum).isSome = true :=
      Option.ne_none_iff_isSome.mp hfnd
    by_cases hgps : s.isGpsHighPower = false ∧ s.gpsUpdateInterval ≠ HIGH_GPS_INTERVAL
    · simp [handleReceivedProtobuf, ht, hs, hst, hfnd, hknown, activateHighGpsMode, hgps]
    · simp [handleReceivedProtobuf, ht, hs, hst, hfnd, hknown, activateHighGpsMode, hgps]

/-- Witness for C2's theorem: node 5 accepts while we await its response;
nothing is transmitted back. -/
theorem accept_no_reply_w :
    (handleReceivedProtobuf cEnv c2State 5 true (msgOf RequestType.ACCEPT)).2.2 = [] :=
  (accept_no_reply cEnv c2State 5 (msgOf RequestType.ACCEPT)
    (by decide) rfl rfl rfl (by decide)).2.2.1

/-- C2 counterexample: on the accepted ACCEPT the session does move to
`TRACKING_TARGET`, but the transmit list is empty — no NONE telemetry
reply is sent to the sender, contrary to the claim. -/
theorem accept_no_none_reply_cex :
    (handleReceivedProtobuf cEnv c2State 5 true (msgOf RequestType.ACCEPT)).2.2 = [] ∧
    (handleReceivedProtobuf cEnv c2State 5 true (msgOf RequestType.ACCEPT)).2.1.currentState
      = FriendFinderState.TRACKING_TARGET := by
  decide

/-! Remaining helpers for the friend-directory claim. -/

theorem nth_of_mem {α : Type _} {l : List α} {b : α} (h : b ∈ l) :
    ∃ j, nth l j = some b := by
  induction l with
  | nil => simp at h
  | cons a l ih =>
      rcases List.mem_cons.mp h with hb | hb
      · exact ⟨0, by simp [nth, hb]⟩
      · obtain ⟨j, hj⟩ := ih hb
        exact ⟨j + 1, by simpa [nth] using hj⟩

theorem filter_eq_nil_of {α : Type _} {l : List α} {p : α → Bool}
    (h : ∀ b ∈ l, p b = false) : l.filter p = [] := by
  induction l with
  | nil => rfl
  | cons a l ih =>
      have ha := h a (List.mem_cons_self a l)
      simp only [List.filter, ha]
      exact ih fun b hb => h b (List.mem_cons_of_mem a hb)

theorem filter_eq_single {α : Type _} {l : List α} {p : α → Bool} {i : Nat} {a : α}
    (ha : nth l i = some a) (hpa : p a = true)
    (huniq : ∀ j b, nth l j = some b → p b = true → j = i) :
    l.filter p = [a] := by
  induction l generalizing i with
  | nil => simp [nth] at ha
  | cons c rest ih =>
      cases i with
      | zero =>
          have hac : c = a := by simpa [nth] using ha
          subst hac
          have hrest : rest.filter p = [] := by
            refine filter_eq_nil_of ?_
            intro b hb
            obtain ⟨j, hj⟩ := nth_of_mem hb
            by_cases hpb : p b = true
            · have := huniq (j + 1) b (by simpa [nth] using hj) hpb
              exact absurd this (Nat.succ_ne_zero j)
            · exact Bool.eq_false_iff.mpr hpb
          simp [List.filter, hpa, hrest]
      | succ m =>
          have hpc : p c = false := by
            by_cases hc : p c = true
            · have := huniq 0 c (by simp [nth]) hc
              exact absurd this.symm (Nat.succ_ne_zero m)
            · exact Bool.eq_false_iff.mpr hc
          have ha' : nth rest m = some a := by simpa [nth] using ha
          have huniq' : ∀ j b, nth rest j = some b → p b = true → j = m := by
            intro j b hb hpb
            have := huniq (j + 1) b (by simpa [nth] using hb) hpb
            exact Nat.succ_injective this
          simp [List.filter, hpc]
          exact ih ha' huniq'

theorem inv_applyOps (ops : List DirOp) :
    ∀ fs : List FriendRecord, Inv fs → Inv (applyOps ops fs) := by
  induction ops with
  | nil => intro fs h; exact h
  | cons op ops ih =>
      intro fs h
      have h1 : Inv (applyOp fs op) := by
        cases op with
        | upsert n sid sec => exact inv_upsert h
        | remove listIdx => exact inv_remove h
      simpa [applyOps, List.foldl] using ih (applyOp fs op) h1

/-- C9: every sequence of `upsertFriend` / `removeFriendAt` operations
from the empty directory keeps exactly `MAX_FRIENDS` slots with the node
id unique among in-use slots; and two upserts of the same peer id leave
exactly one in-use record for it, holding the session id of the latest
call. -/
theorem friend_directory_invariant :
    (∀ ops : List DirOp, Inv (applyOps ops initFriends)) ∧
    (∀ (fs : List FriendRecord) (n sid1 sid2 : Nat) (sec1 sec2 : List Nat), Inv fs →
      ((upsertFriend (upsertFriend fs n sid1 sec1) n sid2 sec2).filter fun f =>
        f.used && f.node == n).map (fun f => f.session_id) = [sid2]) := by
  constructor
  · intro ops
    exact inv_applyOps ops initFriends inv_init
  · intro fs n sid1 sid2 sec1 sec2 hInv
    have hInv1 : Inv (upsertFriend fs n sid1 sec1) := inv_upsert hInv
    have hInv2 : Inv (upsertFriend (upsertFriend fs n sid1 sec1) n sid2 sec2) :=
      inv_upsert hInv1
    have hlen1 : 0 < (upsertFriend fs n sid1 sec1).length := by
      rw [hInv1.1]; decide
    obtain ⟨r, hr, hru, hrn, hrs⟩ :=
      nth_upsertFriend_self (upsertFriend fs n sid1 sec1) n sid2 sec2 hlen1
    have hpred : (r.used && r.node == n) = true := by simp [hru, hrn]
    have hfil : ((upsertFriend (upsertFriend fs n sid1 sec1) n sid2 sec2).filter fun f =>
        f.used && f.node == n) = [r] := by
      refine filter_eq_single hr hpred ?_
      intro j b hb hpb
      have hpb' : b.used = true ∧ (b.node == n) = true := by simpa using hpb
      have hbn : b.node = n := by simpa using hpb'.2
      exact inv_elim hInv2 hb hr hpb'.1 hru (by rw [hbn, hrn])
    rw [hfil]
    simp [hrs]

/-- Witness for C9's theorem: upserting peer 5 twice into the empty
directory leaves one in-use record for it, holding the second session id. -/
theorem friend_directory_invariant_w :
    ((upsertFriend (upsertFriend initFriends 5 1 (List.replicate 16 0)) 5 2
      (List.replicate 16 0)).filter fun f => f.used && f.node == 5).map
      (fun f => f.session_id) = [2] :=
  friend_directory_invariant.2 initFriends 5 1 2 (List.replicate 16 0)
    (List.replicate 16 0) inv_init

end FriendFinder
